import Mathlib

/-!
Verification development for the WorldQuest question generation, validation
and pooling engine (backend/apps/worldquest/services/{ai_generator,
template_generator, question_generator}.py).

The Python code is shallowly embedded: dictionaries become association
lists, floats become exact rationals (`ℚ`), Python's `round` (banker's
rounding) becomes `roundHalfEven`, and the global random generator becomes
an explicit stream of naturals (`List ℕ`) consumed by `randomSample` /
`randomChoice`.  Fallible operations return `Option`.
-/

set_option maxRecDepth 2000
set_option linter.unusedVariables false


/-! ## Python string primitives -/

/-- Python `str.lower()` (ASCII, which covers all strings in this code). -/
def pyLower (s : String) : String := ⟨s.data.map Char.toLower⟩

/-- Python `str.upper()` (ASCII). -/
def pyUpper (s : String) : String := ⟨s.data.map Char.toUpper⟩

/-- Python `str.strip()`: drop whitespace from both ends. -/
def pyStrip (s : String) : String :=
  ⟨((s.data.dropWhile Char.isWhitespace).reverse.dropWhile Char.isWhitespace).reverse⟩

/-- Helper for `pyTitle`: the Bool records whether the previous char was alphabetic. -/
def pyTitleGo : Bool → List Char → List Char
  | _, [] => []
  | prevAlpha, c :: t =>
    (if c.isAlpha then (if prevAlpha then c.toLower else c.toUpper) else c) ::
      pyTitleGo c.isAlpha t

/-- Python `str.title()`: each maximal alphabetic run starts uppercase, rest lowercase. -/
def pyTitle (s : String) : String := ⟨pyTitleGo false s.data⟩

/-- Python `needle in hay` substring test on character lists. -/
def listContainsSub (needle : List Char) : List Char → Bool
  | [] => needle.isEmpty
  | c :: t => needle.isPrefixOf (c :: t) || listContainsSub needle t

/-- Python `needle in hay` for strings. -/
def pySubstr (needle hay : String) : Bool := listContainsSub needle.data hay.data

/-! ## Python numeric primitives -/

/-- An integer as a rational, by direct construction (the `Nat.cast` /
`Int.cast` coercions recurse unarily and do not evaluate on large inputs). -/
def intToQ (n : ℤ) : ℚ := ⟨n, 1, one_ne_zero, n.natAbs.coprime_one_right⟩

/-- Python `round(q)`: round half to even (banker's rounding). -/
def roundHalfEven (q : ℚ) : ℤ :=
  let f : ℤ := ⌊q⌋
  let r : ℚ := q - f
  if r < 1/2 then f
  else if 1/2 < r then f + 1
  else if f % 2 = 0 then f else f + 1

/-- Python `round(q, 1)`. -/
def round1 (q : ℚ) : ℚ := intToQ (roundHalfEven (q * 10)) / 10

/-- Render a natural below 100 with two digits. -/
def natPad2 (n : ℕ) : String := if n < 10 then "0" ++ toString n else toString n

/-- Python `"{:.0f}".format(q)`. -/
def formatF0 (q : ℚ) : String := toString (roundHalfEven q)

/-- Python `"{:.1f}".format(q)`. -/
def formatF1 (q : ℚ) : String :=
  let n := roundHalfEven (q * 10)
  let m := n.natAbs
  let s := toString (m / 10) ++ "." ++ toString (m % 10)
  if n < 0 then "-" ++ s else s

/-- Python `"{:.2f}".format(q)`. -/
def formatF2 (q : ℚ) : String :=
  let n := roundHalfEven (q * 100)
  let m := n.natAbs
  let s := toString (m / 100) ++ "." ++ natPad2 (m % 100)
  if n < 0 then "-" ++ s else s

/-- Insert a comma after every third character of a reversed digit list. -/
def commaChunks : List Char → List Char
  | a :: b :: c :: d :: t => a :: b :: c :: ',' :: commaChunks (d :: t)
  | l => l

/-- Thousands grouping of a natural number, as used by Python `"{:,}"`. -/
def commaGroup (n : ℕ) : String := ⟨(commaChunks ((toString n).data.reverse)).reverse⟩

/-- The numeric format specifiers appearing in `TEMPLATE_METRICS`. -/
inductive NumFormat
  | f0   -- "{:.0f}"
  | f1   -- "{:.1f}"
  | f2   -- "{:.2f}"
  | usd0 -- "${:,.0f}"
  | usd2 -- "${:.2f}"
deriving DecidableEq

/-- Apply a numeric format specifier the way Python `str.format` does. -/
def applyFmt : NumFormat → ℚ → String
  | .f0, q => formatF0 q
  | .f1, q => formatF1 q
  | .f2, q => formatF2 q
  | .usd0, q =>
    let n := roundHalfEven q
    if n < 0 then "$-" ++ commaGroup n.natAbs else "$" ++ commaGroup n.natAbs
  | .usd2, q => "$" ++ formatF2 q

/-- Value of a list of decimal digit characters, as a rational. -/
def digitsVal (cs : List Char) : ℚ :=
  cs.foldl (fun a c => a * 10 + intToQ (Int.ofNat (c.toNat - 48))) 0

/-- `10 ^ n` as a rational. -/
def tenPowQ : ℕ → ℚ
  | 0 => 1
  | n + 1 => 10 * tenPowQ n

/-- Value of a fractional digit string (the part after the decimal point). -/
def fracVal (cs : List Char) : ℚ := digitsVal cs / tenPowQ cs.length

/-! ## Randomness model

Python's global `random` is modelled as a stream of naturals; an index pick
takes `head % length`.  `randomSample` models `random.sample` (sampling
without replacement) and, applied with `k = length`, `random.shuffle`. -/

/-- Model of `random.sample(l, k)` (and of `random.shuffle` when `k = l.length`). -/
def randomSample {α : Type} : ℕ → List α → List ℕ → List α × List ℕ
  | 0, _, rng => ([], rng)
  | _ + 1, [], rng => ([], rng)
  | k + 1, x :: xs, rng =>
    let l := x :: xs
    let i := rng.headD 0 % l.length
    let y := l.getD i x
    let (rest, rng') := randomSample k (l.eraseIdx i) rng.tail
    (y :: rest, rng')

/-- Model of `random.choice(l)`; `dflt` is only used when `l` is empty
(the source never calls it on an empty list). -/
def randomChoice {α : Type} (l : List α) (dflt : α) (rng : List ℕ) : α × List ℕ :=
  (l.getD (rng.headD 0 % l.length) dflt, rng.tail)

/-! ## Association lists (Python dicts, in insertion order) -/

/-- Python `d[k]` / `k in d` lookup on an association list. -/
def alookup {α : Type} (l : List (String × α)) (k : String) : Option α :=
  match l.find? (fun p => decide (p.1 = k)) with
  | some p => some p.2
  | none => none

/-- Python `d[k] = v`: replace in place if the key exists, otherwise append. -/
def upsert {α : Type} (l : List (String × α)) (k : String) (v : α) : List (String × α) :=
  match l with
  | [] => [(k, v)]
  | (k', v') :: t => if k' = k then (k, v) :: t else (k', v') :: upsert t k v

/-! ## ai_generator.py -/

/-- A dataset metric entry `{value: number, year: optional int}`
(`value` is `none` when the `"value"` key is missing or unusable). -/
structure MetricEntry where
  value : Option ℚ
  year : Option ℤ
deriving DecidableEq

/-- A raw AI question draft (the dict parsed from the model response).
The structurally required fields are typed as present; the free-text
fields are optional. -/
structure AIQuestion where
  prompt : String
  choices : List String
  correct_index : ℤ
  difficulty : ℤ := 1
  did_you_know : Option String := none
  surprising_fact : Option String := none
  explanation : Option String := none
  insight : Option String := none
deriving DecidableEq

/-- The allow-list `INTERESTING_METRICS` of ai_generator.py. -/
def INTERESTING_METRICS : List String :=
  [ "life_expectancy_female",
    "life_expectancy_male",
    "median_age_years",
    "population_density_per_square_km",
    "urban_population_percent_of_total",
    "population_growth_annual_percent",
    "age_at_1st_marriage_women",
    "total_population_with_projections",
    "infant_mortality_rate_per_1000_births",
    "medical_doctors_per_1000_people",
    "alcohol_consumption_per_adult_15plus_litres",
    "smoking_adults_percent_of_population_over_age_15",
    "body_mass_index_bmi_men_kgperm2",
    "body_mass_index_bmi_women_kgperm2",
    "food_supply_kilocalories_per_person_and_day",
    "sugar_per_person_g_per_day",
    "births_attended_by_skilled_health_staff_percent_of_total",
    "gdppercapita_us_inflation_adjusted",
    "inequality_index_gini",
    "inflation_annual_percent",
    "exports_percent_of_gdp",
    "imports_percent_of_gdp",
    "tax_revenue_percent_of_gdp",
    "total_number_of_dollar_billionaires",
    "extreme_poverty_percent_people_below_300_a_day",
    "aged_15plus_unemployment_rate_percent",
    "agriculture_workers_percent_of_employment",
    "industry_workers_percent_of_employment",
    "service_workers_percent_of_employment",
    "working_hours_per_week",
    "literacy_rate_adult",
    "mean_years_in_school_men_25_years_and_older",
    "mean_years_in_school_women_25_years_and_older",
    "children_out_of_school_primary",
    "internet_users",
    "cell_phones_per_100_people",
    "broadband_subscribers_per_100_people",
    "cars_trucks_and_buses_per_1000_persons",
    "electricity_use_per_person",
    "roads_paved_percent_of_total_roads",
    "forest_coverage_percent",
    "co2_emissions_tonnes_per_person",
    "renewable_water_cu_meters_per_person",
    "agricultural_land_percent_of_land_area",
    "murder_per_100000_people",
    "traffic_deaths_per_100000_people",
    "suicide_per_100000_people",
    "military_expenditure_percent_of_gdp",
    "armed_forces_personnel_percent_of_labor_force",
    "pump_price_for_gasoline_us_per_liter",
    "bad_teeth_per_child_12_yr",
    "teen_fertility_rate_births_per_1000_women_ages_15_19",
    "contraceptive_use_percent_of_women_ages_15_49" ]

/-- A category of a country's dataset record (metric key to entry). -/
abbrev CategoryData := List (String × MetricEntry)

/-- A country's dataset record (category name to category data).  The source
skips non-dict category values; the typed embedding only contains dicts. -/
abbrev CountryData := List (String × CategoryData)

/-- The whole dataset (country name to record). -/
abbrev Dataset := List (String × CountryData)

/-- `metric_key.replace("_", " ").title()` of `_extract_metrics`. -/
def displayNameOf (mk : String) : String :=
  pyTitle ⟨mk.data.map (fun c => if c = '_' then ' ' else c)⟩

/-- The two recency guards of `_extract_metrics`, including Python's
truthiness test `if year and ...` (a `0` or missing year skips both guards). -/
def yearAllowed (cy : ℤ) (yr : Option ℤ) : Bool :=
  match yr with
  | none => true
  | some y =>
    if y ≠ 0 ∧ cy < y then false
    else if y ≠ 0 ∧ y < cy - 15 then false
    else true

/-- One category's contribution to `_extract_metrics`: iterate the
allow-list, keep entries with a usable value and an allowed year. -/
def extractMetricsCat (cy : ℤ) (cdata : CategoryData)
    (acc : List (String × MetricEntry)) : List (String × MetricEntry) :=
  INTERESTING_METRICS.foldl (fun acc mk =>
    match alookup cdata mk with
    | some e =>
      match e.value with
      | some v =>
        if yearAllowed cy e.year then
          upsert acc (displayNameOf mk) ⟨some v, e.year⟩
        else acc
      | none => acc
    | none => acc) acc

/-- `AIQuestionGenerator._extract_metrics` (lines 237-270), with the current
year passed explicitly. -/
def extractMetrics (cy : ℤ) (cd : CountryData) : List (String × MetricEntry) :=
  cd.foldl (fun acc p => extractMetricsCat cy p.2 acc) []

/-- `AIQuestionGenerator._validate_question` (lines 272-285): 4 choices,
pairwise distinct after `str(...).strip()`, integer `correct_index` in `[0,3]`.
The required fields are present by typing. -/
def validateQuestion (q : AIQuestion) : Bool :=
  decide (q.choices.length = 4) &&
  decide (((q.choices.map pyStrip).dedup).length = 4) &&
  decide (0 ≤ q.correct_index) && decide (q.correct_index ≤ 3)

/-- The regex `^([$€£]?)(\d+\.?\d*)\s*(.*)$` of `_normalize_choice_precision`
applied to `str(choice).strip()`: an optional currency character, a digit run,
an optional dot with a further digit run, skipped whitespace, and the rest as
suffix.  Returns `(currency, magnitude, suffix)` or `none` when the choice is
not numeric in this sense. -/
def parseChoice (s : String) : Option (String × ℚ × String) :=
  let cs := (pyStrip s).data
  let startOpt : Option (List Char × List Char) :=
    match cs with
    | c :: c2 :: rest =>
      if (c = '$' || c = '€' || c = '£') && c2.isDigit then some ([c], c2 :: rest)
      else if c.isDigit then some ([], cs) else none
    | [c] => if c.isDigit then some ([], cs) else none
    | [] => none
  match startOpt with
  | none => none
  | some (cur, r0) =>
    let d1 := r0.takeWhile Char.isDigit
    let r1 := r0.drop d1.length
    let fracR2 : List Char × List Char :=
      match r1 with
      | '.' :: t => (t.takeWhile Char.isDigit, t.drop (t.takeWhile Char.isDigit).length)
      | _ => ([], r1)
    let mag : ℚ := digitsVal d1 + fracVal fracR2.1
    let r3 := fracR2.2.dropWhile Char.isWhitespace
    some (⟨cur⟩, mag, ⟨r3⟩)

/-- Suffix re-rendering of `_normalize_choice_precision` line 324:
`" " + suffix` unless the suffix starts with `%`. -/
def renderSuffix (su : String) : String :=
  if su = "" then "" else if List.isPrefixOf ['%'] su.data then su else " " ++ su

/-- Choice re-rendering of `_normalize_choice_precision` lines 320-325:
currency prefix, `int(round(num))`, suffix, then `strip()`. -/
def renderRounded (cur : String) (mag : ℚ) (su : String) : String :=
  pyStrip (cur ++ toString (roundHalfEven mag) ++ renderSuffix su)

/-- `AIQuestionGenerator._normalize_choice_precision` (lines 287-330).
The source computes `has_decimals` but never branches on it; every choice's
magnitude is rounded whenever all choices parse as numeric, and the function
is the identity when any choice fails to parse (or when `choices` is empty). -/
def normalizeChoicePrecision (q : AIQuestion) : AIQuestion :=
  if q.choices.isEmpty then q
  else
    let parsed := q.choices.map parseChoice
    if parsed.all Option.isSome then
      { q with choices := parsed.map (fun p =>
          match p with
          | some (cur, mag, su) => renderRounded cur mag su
          | none => "") }
    else q

/-- `re.sub(r'[$€£,]', '', text)` of `_extract_number_from_text`. -/
def stripCurrencyCommas (s : String) : List Char :=
  s.data.filter (fun c => !(c = '$' || c = '€' || c = '£' || c = ','))

/-- A match of `[-+]?\d*\.?\d+` anchored at the head of `cs` (with the
backtracking regex semantics: the fractional part is kept only when at least
one digit follows the dot). -/
def numTokenAt (cs : List Char) : Option ℚ :=
  let sgnR0 : ℚ × List Char :=
    match cs with
    | '-' :: t => (-1, t)
    | '+' :: t => (1, t)
    | _ => (1, cs)
  let sgn := sgnR0.1
  let r0 := sgnR0.2
  let d1 := r0.takeWhile Char.isDigit
  let r1 := r0.drop d1.length
  match r1 with
  | '.' :: t =>
    let d2 := t.takeWhile Char.isDigit
    if d2.isEmpty then
      if d1.isEmpty then none else some (sgn * digitsVal d1)
    else some (sgn * (digitsVal d1 + fracVal d2))
  | _ => if d1.isEmpty then none else some (sgn * digitsVal d1)

/-- Leftmost match of `re.findall(r'[-+]?\d*\.?\d+', ...)`. -/
def findNum : List Char → Option ℚ
  | [] => none
  | c :: t =>
    match numTokenAt (c :: t) with
    | some q => some q
    | none => findNum t

/-- `AIQuestionGenerator._extract_number_from_text` (lines 332-346). -/
def extractNumberFromText (s : String) : Option ℚ :=
  if s = "" then none else findNum (stripCurrencyCommas s)

/-- The `keyword_mappings` table of `_find_matching_metric` (lines 353-400),
in source order. -/
def keywordMappings : List (String × List String) :=
  [ ("life expectancy", ["life expectancy"]),
    ("literacy", ["literacy"]),
    ("forest", ["forest coverage", "forest"]),
    ("gdp", ["gdp", "gdppercapita"]),
    ("unemployment", ["unemployment"]),
    ("infant mortality", ["infant mortality"]),
    ("population density", ["population density"]),
    ("urban population", ["urban population"]),
    ("service", ["service workers"]),
    ("agriculture", ["agriculture workers"]),
    ("industry", ["industry workers"]),
    ("internet", ["internet"]),
    ("doctors", ["medical doctors", "doctors"]),
    ("co2", ["co2 emissions"]),
    ("alcohol", ["alcohol consumption"]),
    ("smoking", ["smoking"]),
    ("median age", ["median age"]),
    ("fertility", ["teen fertility", "fertility rate"]),
    ("marriage", ["marriage"]),
    ("working hours", ["working hours"]),
    ("cell phone", ["cell phones"]),
    ("broadband", ["broadband"]),
    ("cars", ["cars trucks"]),
    ("electricity", ["electricity"]),
    ("roads", ["roads paved"]),
    ("water", ["renewable water"]),
    ("agricultural land", ["agricultural land"]),
    ("murder", ["murder"]),
    ("traffic death", ["traffic deaths"]),
    ("suicide", ["suicide"]),
    ("military", ["military expenditure"]),
    ("armed forces", ["armed forces"]),
    ("gasoline", ["pump price", "gasoline"]),
    ("teeth", ["bad teeth"]),
    ("bmi", ["body mass index", "bmi"]),
    ("food supply", ["food supply", "kilocalories"]),
    ("sugar", ["sugar"]),
    ("inequality", ["inequality", "gini"]),
    ("inflation", ["inflation"]),
    ("exports", ["exports"]),
    ("imports", ["imports"]),
    ("tax", ["tax revenue"]),
    ("billionaire", ["billionaire"]),
    ("poverty", ["poverty", "extreme poverty"]),
    ("school", ["years in school", "mean years"]),
    ("children out of school", ["children out of school"]) ]

/-- Inner metric scan of `_find_matching_metric`: the first metric whose
lowercased display name contains one of the patterns and whose value is
usable. -/
def fmmMetric (patterns : List String) : List (String × MetricEntry) → Option (String × ℚ)
  | [] => none
  | (name, e) :: t =>
    match e.value with
    | some v =>
      if patterns.any (fun p => listContainsSub p.data (pyLower name).data) then
        some (name, v)
      else fmmMetric patterns t
    | none => fmmMetric patterns t

/-- Keyword scan of `_find_matching_metric`: try each keyword contained in the
lowercased prompt, in table order. -/
def fmmGo (pl : String) (metrics : List (String × MetricEntry)) :
    List (String × List String) → Option (String × ℚ)
  | [] => none
  | (kw, pats) :: t =>
    if listContainsSub kw.data pl.data then
      match fmmMetric pats metrics with
      | some r => some r
      | none => fmmGo pl metrics t
    else fmmGo pl metrics t

/-- `AIQuestionGenerator._find_matching_metric` (lines 348-416). -/
def findMatchingMetric (promptText : String)
    (metrics : List (String × MetricEntry)) : Option (String × ℚ) :=
  fmmGo (pyLower promptText) metrics keywordMappings

/-- Numeric value of a token `\d+\.?\d*` (Python `float` of the token). -/
def tokVal (tok : List Char) : ℚ :=
  let d1 := tok.takeWhile Char.isDigit
  let rest := tok.drop d1.length
  match rest with
  | '.' :: d2 => digitsVal d1 + fracVal d2
  | _ => digitsVal d1

/-- The `replace_wrong_number` callback of `_validate_and_fix_answer`
(lines 482-491): replace a number close to the actual value (within 20%)
by the corrected choice value, keeping decimal-vs-integer style. -/
def pctReplacement (actual corr : ℚ) (tok : List Char) : List Char :=
  let num := tokVal tok
  if |num - actual| < actual * (2/10) then
    if tok.contains '.' then (formatF1 corr).data
    else (toString (roundHalfEven corr)).data
  else tok

/-- Split a greedy `\d+\.?\d*` token starting at digit `c` with remaining
input `r1` (the characters after the leading digit run `c :: dtail`). -/
def pctSplit (c : Char) (dtail r1 : List Char) : List Char × List Char :=
  match r1 with
  | '.' :: t => (c :: dtail ++ '.' :: t.takeWhile Char.isDigit,
                 t.drop (t.takeWhile Char.isDigit).length)
  | _ => (c :: dtail, r1)

/-- `re.sub(r'(\d+\.?\d*)(?=%)', replace_wrong_number, text)`: scan left to
right; at a digit, take the greedy numeric token; when it is immediately
followed by `%` the callback fires, otherwise move one character on.  The
fuel starts at the length of the text; each step consumes at least one
character, so the fuel never runs out. -/
def fixPercentGo (actual corr : ℚ) : ℕ → List Char → List Char
  | _, [] => []
  | 0, cs => cs
  | fuel + 1, c :: rest =>
    if c.isDigit then
      let dtail := rest.takeWhile Char.isDigit
      let r1 := rest.drop dtail.length
      let tokR2 := pctSplit c dtail r1
      match tokR2.2 with
      | '%' :: _ => pctReplacement actual corr tokR2.1 ++ fixPercentGo actual corr fuel tokR2.2
      | _ => c :: fixPercentGo actual corr fuel rest
    else c :: fixPercentGo actual corr fuel rest

/-- The text-repair substitution of `_validate_and_fix_answer` lines 477-494. -/
def fixPercent (actual corr : ℚ) (s : String) : String :=
  ⟨fixPercentGo actual corr s.data.length s.data⟩

/-- `if field in question and question[field]: question[field] = re.sub(...)`.
An empty string is falsy and left alone. -/
def updTextField (actual corr : ℚ) (o : Option String) : Option String :=
  match o with
  | some s => if s = "" then some s else some (fixPercent actual corr s)
  | none => none

/-- The best-match scan of `_validate_and_fix_answer` lines 443-451: the first
index whose parsed value minimises the absolute difference to the actual
value, carried as `(index, difference)`. -/
def bestMatchAux (actual : ℚ) : List (Option ℚ) → ℕ → Option (ℕ × ℚ) → Option (ℕ × ℚ)
  | [], _, acc => acc
  | none :: t, i, acc => bestMatchAux actual t (i + 1) acc
  | some x :: t, i, acc =>
    let d := |x - actual|
    match acc with
    | none => bestMatchAux actual t (i + 1) (some (i, d))
    | some (bi, bd) =>
      if d < bd then bestMatchAux actual t (i + 1) (some (i, d))
      else bestMatchAux actual t (i + 1) (some (bi, bd))

/-- `AIQuestionGenerator._validate_and_fix_answer` (lines 418-496). -/
def validateAndFixAnswer (q : AIQuestion)
    (metrics : List (String × MetricEntry)) : Option AIQuestion :=
  match findMatchingMetric q.prompt metrics with
  | none => some q
  | some (_, actual) =>
    let vals := q.choices.map extractNumberFromText
    match bestMatchAux actual vals 0 none with
    | none => none
    | some (bi, bd) =>
      let tol := max (actual * (15/100)) 2
      if tol < bd then none
      else
        let q1 := { q with correct_index := (bi : ℤ) }
        match vals.get? bi with
        | some (some ccv) =>
          some { q1 with
                 surprising_fact := updTextField actual ccv q1.surprising_fact,
                 explanation := updTextField actual ccv q1.explanation,
                 did_you_know := updTextField actual ccv q1.did_you_know }
        | _ => some q1

/-- The per-draft acceptance pipeline of `generate_questions`
(ai_generator.py lines 553-568): structural validation, then precision
normalization, then numeric validation and repair.  `none` means the draft
is dropped. -/
def processDraft (metrics : List (String × MetricEntry)) (q : AIQuestion) : Option AIQuestion :=
  if validateQuestion q then validateAndFixAnswer (normalizeChoicePrecision q) metrics
  else none

/-! ## template_generator.py -/

/-- `GeneratedQuestion` data class of template_generator.py. -/
structure GeneratedQuestion where
  prompt : String
  choices : List String
  correct_index : ℤ
  difficulty : ℤ
  category_name : String
  explanation : String
  source : String := "dataset"
deriving DecidableEq

/-- `DATASET_TO_MODEL_CATEGORY` (template_generator.py lines 27-33). -/
def DATASET_TO_MODEL_CATEGORY : List (String × String) :=
  [ ("People & Society", "mental"),
    ("Economy", "economic"),
    ("Health", "physical"),
    ("Environment", "environmental"),
    ("Geography & Physical", "physical") ]

/-- A `TEMPLATE_METRICS` table entry. -/
structure MetricInfo where
  display_name : String
  unit : String
  fmt : NumFormat
  category : String
deriving DecidableEq

/-- `TEMPLATE_METRICS` (template_generator.py lines 36-198), in source order. -/
def TEMPLATE_METRICS : List (String × MetricInfo) :=
  [ ("life_expectancy_female", ⟨"female life expectancy", "years", .f1, "Health"⟩),
    ("life_expectancy_male", ⟨"male life expectancy", "years", .f1, "Health"⟩),
    ("median_age_years", ⟨"median age", "years", .f1, "People & Society"⟩),
    ("population_density_per_square_km",
      ⟨"population density", "people per km²", .f0, "Geography & Physical"⟩),
    ("urban_population_percent_of_total", ⟨"urban population", "%", .f1, "People & Society"⟩),
    ("infant_mortality_rate_per_1000_births",
      ⟨"infant mortality rate", "per 1000 births", .f1, "Health"⟩),
    ("medical_doctors_per_1000_people", ⟨"doctors per 1000 people", "", .f2, "Health"⟩),
    ("alcohol_consumption_per_adult_15plus_litres",
      ⟨"alcohol consumption per adult", "litres/year", .f1, "Health"⟩),
    ("literacy_rate_adult", ⟨"adult literacy rate", "%", .f1, "People & Society"⟩),
    ("mean_years_in_school_men_25_years_and_older",
      ⟨"average years of schooling (men)", "years", .f1, "People & Society"⟩),
    ("internet_users", ⟨"internet usage rate", "%", .f1, "People & Society"⟩),
    ("cell_phones_per_100_people", ⟨"cell phones per 100 people", "", .f0, "People & Society"⟩),
    ("cars_trucks_and_buses_per_1000_persons", ⟨"vehicles per 1000 people", "", .f0, "Economy"⟩),
    ("forest_coverage_percent", ⟨"forest coverage", "%", .f1, "Environment"⟩),
    ("co2_emissions_tonnes_per_person", ⟨"CO2 emissions per capita", "tonnes", .f1, "Environment"⟩),
    ("agricultural_land_percent_of_land_area", ⟨"agricultural land", "%", .f1, "Environment"⟩),
    ("gdppercapita_us_inflation_adjusted", ⟨"GDP per capita", "USD", .usd0, "Economy"⟩),
    ("inequality_index_gini", ⟨"inequality index (Gini)", "", .f1, "Economy"⟩),
    ("aged_15plus_unemployment_rate_percent", ⟨"unemployment rate", "%", .f1, "Economy"⟩),
    ("murder_per_100000_people", ⟨"murder rate", "per 100,000", .f1, "People & Society"⟩),
    ("traffic_deaths_per_100000_people", ⟨"traffic deaths", "per 100,000", .f1, "Health"⟩),
    ("military_expenditure_percent_of_gdp", ⟨"military spending", "% of GDP", .f1, "Economy"⟩),
    ("pump_price_for_gasoline_us_per_liter", ⟨"gasoline price", "USD/liter", .usd2, "Economy"⟩),
    ("working_hours_per_week", ⟨"average working hours", "hours/week", .f1, "Economy"⟩) ]

/-- `TemplateQuestionGenerator._find_metric_value` (lines 228-238): first
category holding the key with a usable value. -/
def findMetricValue (cd : CountryData) (mk : String) : Option (ℚ × Option ℤ) :=
  match cd with
  | [] => none
  | (_, cdata) :: t =>
    match alookup cdata mk with
    | some e =>
      match e.value with
      | some v => some (v, e.year)
      | none => findMetricValue t mk
    | none => findMetricValue t mk

/-- Insert into a strictly sorted list of rationals, dropping duplicates. -/
def dedupSortedInsert (x : ℚ) : List ℚ → List ℚ
  | [] => [x]
  | y :: t => if x < y then x :: y :: t else if x = y then y :: t else y :: dedupSortedInsert x t

/-- Python `sorted(set(l))`. -/
def dedupSorted (l : List ℚ) : List ℚ := l.foldl (fun acc x => dedupSortedInsert x acc) []

/-- The candidate variation list of `_generate_plausible_choices`
(lines 249-261): proportional perturbations at plus or minus 15% and 30%,
absolute offsets for small values, positivity filter, then
`sorted(set([round(v, 1) for v in variations if abs(v - correct_value) > 0.1]))`.
Note the deduplication is on the raw value rounded to one decimal, not on
the formatted string. -/
def variationsFor (c : ℚ) : List ℚ :=
  let base := (([-(3/10), -(15/100), 15/100, 3/10] : List ℚ).map
    (fun pct => c * (1 + pct))).filter (fun v => 0 < v)
  let base2 :=
    if c < 10 then (base ++ [c - 2, c - 1, c + 1, c + 2]).filter (fun v => 0 < v)
    else base
  dedupSorted ((base2.filter (fun v => 1/10 < |v - c|)).map round1)

/-- The `while len(wrong_values) < count - 1` loop of
`_generate_plausible_choices` (lines 267-270), with `random.uniform(0.5, 1.5)`
modelled as `(5 + r % 11) / 10` from the stream, and explicit fuel (the loop
is not guaranteed to terminate in the source, e.g. for `correct_value = 0`). -/
def fillWrong (c : ℚ) (target : ℕ) : ℕ → List ℚ → List ℕ → List ℚ × List ℕ
  | 0, ws, rng => (ws, rng)
  | fuel + 1, ws, rng =>
    if ws.length < target then
      let u : ℚ := intToQ (Int.ofNat (5 + rng.headD 0 % 11)) / 10
      let nv := c * u
      if 1/10 < |nv - c| ∧ ¬ ws.contains nv then
        fillWrong c target fuel (ws ++ [round1 nv]) rng.tail
      else fillWrong c target fuel ws rng.tail
    else (ws, rng)

/-- The choice formatting closure of `_generate_plausible_choices`
(lines 277-284): apply the format, then append the unit when it is nonempty
and not already a substring of the formatted value. -/
def formatChoiceT (info : MetricInfo) (v : ℚ) : String :=
  let f := applyFmt info.fmt v
  if info.unit ≠ "" ∧ ¬ (listContainsSub info.unit.data f.data = true) then
    f ++ " " ++ info.unit
  else f

/-- `TemplateQuestionGenerator._generate_plausible_choices` (lines 240-289).
Returns `((choices, correct_index), rng)`. -/
def generatePlausibleChoices (c : ℚ) (info : MetricInfo) (count : ℕ)
    (rng : List ℕ) : (List String × ℤ) × List ℕ :=
  let vars := variationsFor c
  let (wrong0, rng1) := randomSample (min (count - 1) vars.length) vars rng
  let (wrong, rng2) := fillWrong c (count - 1) 1000 wrong0 rng1
  let allVals := wrong.take (count - 1) ++ [c]
  let (shuffled, rng3) := randomSample allVals.length allVals rng2
  let choices := shuffled.map (formatChoiceT info)
  let ci : ℤ := (shuffled.indexOf c : ℕ)
  ((choices, ci), rng3)

/-- The metrics available for a value question (lines 296-300): all
`TEMPLATE_METRICS` entries with a value in the country's data. -/
def availableMetrics (cd : CountryData) :
    List (String × MetricInfo × (ℚ × Option ℤ)) :=
  TEMPLATE_METRICS.filterMap (fun p =>
    (findMetricValue cd p.1).map (fun r => (p.1, p.2, r)))

/-- `TemplateQuestionGenerator.generate_value_question` (lines 291-338). -/
def generateValueQuestion (countryName : String) (cd : CountryData)
    (rng : List ℕ) : Option GeneratedQuestion × List ℕ :=
  let avail := availableMetrics cd
  match avail with
  | [] => (none, rng)
  | a :: _ =>
    let (pick, rng1) := randomChoice avail a rng
    let info := pick.2.1
    let v := pick.2.2.1
    let yr := pick.2.2.2
    let promptBase := "What is the " ++ info.display_name ++ " in " ++ countryName
    let promptText :=
      match yr with
      | some y => if y ≠ 0 then promptBase ++ " (as of " ++ toString y ++ ")?" else promptBase ++ "?"
      | none => promptBase ++ "?"
    let choicesCi := generatePlausibleChoices v info 4 rng1
    let modelCategory := (alookup DATASET_TO_MODEL_CATEGORY info.category).getD "mental"
    let fv := applyFmt info.fmt v
    let expl0 := "The " ++ info.display_name ++ " in " ++ countryName ++ " is " ++
      fv ++ " " ++ info.unit ++ "."
    let expl :=
      match yr with
      | some y => if y ≠ 0 then expl0 ++ " (Data from " ++ toString y ++ ")" else expl0
      | none => expl0
    (some ⟨promptText, choicesCi.1.1, choicesCi.1.2, 1, modelCategory, expl, "dataset"⟩,
      choicesCi.2)

/-- One comparison pair attempt of `generate_comparison_question`
(lines 350-399).  Note `random.shuffle(choices[:2])` in the source shuffles a
temporary copy and therefore has no effect; the final
`correct_index = choices.index(choices[correct_index])` re-lookup is kept. -/
def tryComparisonPair (countryName : String) (cd : CountryData)
    (k1 k2 : String) : Option GeneratedQuestion :=
  match findMetricValue cd k1, findMetricValue cd k2 with
  | some (v1, _), some (v2, _) =>
    let i1 := (alookup TEMPLATE_METRICS k1).getD ⟨"", "", .f1, ""⟩
    let i2 := (alookup TEMPLATE_METRICS k2).getD ⟨"", "", .f1, ""⟩
    if i1.unit = i2.unit then
      let n1 := i1.display_name
      let n2 := i2.display_name
      let promptText := "In " ++ countryName ++ ", which metric has a higher value?"
      let choices := [ pyTitle n1 ++ " (" ++ formatF1 v1 ++ "%)",
                       pyTitle n2 ++ " (" ++ formatF1 v2 ++ "%)",
                       "They are equal",
                       "Data not available" ]
      let ci0 : ℕ := if v2 < v1 then 0 else 1
      let expl :=
        if v2 < v1 then
          "In " ++ countryName ++ ", " ++ n1 ++ " (" ++ formatF1 v1 ++ "%) is higher than " ++
            n2 ++ " (" ++ formatF1 v2 ++ "%)."
        else
          "In " ++ countryName ++ ", " ++ n2 ++ " (" ++ formatF1 v2 ++ "%) is higher than " ++
            n1 ++ " (" ++ formatF1 v1 ++ "%)."
      let correctChoice := choices.getD ci0 ""
      let ci : ℤ := (choices.indexOf correctChoice : ℕ)
      some ⟨promptText, choices, ci, 2, "mental", expl, "dataset"⟩
    else none
  | _, _ => none

/-- `TemplateQuestionGenerator.generate_comparison_question` (lines 340-401):
try the two comparable pairs in order. -/
def generateComparisonQuestion (countryName : String) (cd : CountryData)
    (rng : List ℕ) : Option GeneratedQuestion × List ℕ :=
  match tryComparisonPair countryName cd "life_expectancy_female" "life_expectancy_male" with
  | some q => (some q, rng)
  | none =>
    match tryComparisonPair countryName cd "literacy_rate_adult" "internet_users" with
    | some q => (some q, rng)
    | none => (none, rng)

/-- The generator list of `generate_questions` (lines 413-417): two value
generators and one comparison generator. -/
inductive GenKind
  | value
  | comparison
deriving DecidableEq

/-- The `generators` list of `generate_questions`. -/
def GENERATORS : List GenKind := [.value, .value, .comparison]

/-- The `for generator in generators[:count]` loop of `generate_questions`
(lines 419-422), threading the random stream. -/
def runGenerators (countryName : String) (cd : CountryData) :
    List GenKind → List ℕ → List GeneratedQuestion
  | [], _ => []
  | g :: t, rng =>
    let step :=
      match g with
      | .value => generateValueQuestion countryName cd rng
      | .comparison => generateComparisonQuestion countryName cd rng
    match step.1 with
    | some q => q :: runGenerators countryName cd t step.2
    | none => runGenerators countryName cd t step.2

/-- `TemplateQuestionGenerator.generate_questions` (lines 403-424).  The
`if not country_data` truthiness test treats a missing and an empty record
alike. -/
def generateQuestions (ds : Dataset) (countryName : String) (count : ℕ)
    (rng : List ℕ) : List GeneratedQuestion :=
  match alookup ds countryName with
  | none => []
  | some cd =>
    if cd.isEmpty then []
    else runGenerators countryName cd (GENERATORS.take count) rng

/-! ## question_generator.py -/

/-- A persisted question row (the fields of the `Question` model written by
`_save_ai_question` / `_save_template_question`). -/
structure DBQuestion where
  prompt : String
  choices : List String
  correct_index : ℤ
  difficulty : ℤ
  explanation : String
  did_you_know : String := ""
  surprising_fact : String := ""
  insight : String := ""
  source : String
deriving DecidableEq

/-- `QuestionGenerator._save_template_question` (lines 122-136). -/
def saveTemplateQuestion (g : GeneratedQuestion) : DBQuestion :=
  ⟨g.prompt, g.choices, g.correct_index, g.difficulty, g.explanation, "", "", "", "dataset"⟩

/-- `QuestionGenerator._save_ai_question` (lines 138-161); missing text
fields default to the empty string, a missing difficulty to 2 (the embedded
`AIQuestion.difficulty` is always present). -/
def saveAIQuestion (q : AIQuestion) : DBQuestion :=
  ⟨q.prompt, q.choices, q.correct_index, q.difficulty, q.explanation.getD "",
    q.did_you_know.getD "", q.surprising_fact.getD "", q.insight.getD "", "ai"⟩

/-- The `name_variants` table of `_get_alternate_names` (lines 64-88). -/
def nameVariants : List (String × List String) :=
  [ ("Democratic Republic of the Congo", ["Congo, Dem. Rep.", "DRC", "DR Congo"]),
    ("Republic of the Congo", ["Congo, Rep.", "Congo"]),
    ("South Korea", ["Korea, Rep.", "Korea"]),
    ("North Korea", ["Korea, Dem. Rep."]),
    ("United States", ["USA", "United States of America"]),
    ("United Kingdom", ["UK", "Britain", "Great Britain"]),
    ("Russia", ["Russian Federation"]),
    ("Iran", ["Iran, Islamic Rep."]),
    ("Egypt", ["Egypt, Arab Rep."]),
    ("Venezuela", ["Venezuela, RB"]),
    ("Yemen", ["Yemen, Rep."]),
    ("Syria", ["Syrian Arab Republic"]),
    ("Laos", ["Lao", "Lao PDR"]),
    ("Vietnam", ["Viet Nam"]),
    ("Ivory Coast", ["Cote d\x27Ivoire", "Côte d\x27Ivoire"]),
    ("Czech Republic", ["Czechia"]),
    ("East Timor", ["Timor-Leste"]),
    ("Cape Verde", ["Cabo Verde"]),
    ("Gambia", ["Gambia, The"]),
    ("Bahamas", ["Bahamas, The"]),
    ("Kyrgyzstan", ["Kyrgyz Republic"]),
    ("Slovakia", ["Slovak Republic"]),
    ("Micronesia", ["Micronesia, Fed. Sts."]) ]

/-- `QuestionGenerator._get_alternate_names` (lines 61-103): the name, its
title and upper case variants, the mapped variants, and the reverse mapping. -/
def getAlternateNames (n : String) : List String :=
  let alts := [n, pyTitle n, pyUpper n]
  let alts2 :=
    match alookup nameVariants n with
    | some vs => alts ++ vs
    | none => alts
  nameVariants.foldl (fun acc p => if p.2.contains n then acc ++ (p.1 :: p.2) else acc) alts2

/-- `self.template_generator.get_country_data(name)` followed by the
`if not country_data` truthiness test (an empty record is falsy). -/
def tryCountryData (ds : Dataset) (n : String) : Option CountryData :=
  match alookup ds n with
  | some cd => if cd.isEmpty then none else some cd
  | none => none

/-- First resolvable name of a list. -/
def findFirstData (ds : Dataset) : List String → Option CountryData
  | [] => none
  | n :: t =>
    match tryCountryData ds n with
    | some cd => some cd
    | none => findFirstData ds t

/-- The dataset resolution of `generate_for_country` (lines 199-209):
canonical name first, then every alternate name. -/
def resolveCountryData (ds : Dataset) (n : String) : Option CountryData :=
  match tryCountryData ds n with
  | some cd => some cd
  | none => findFirstData ds (getAlternateNames n)

/-- `QuestionGenerator.QUESTIONS_POOL_SIZE`. -/
def QUESTIONS_POOL_SIZE : ℕ := 10

/-- `QuestionGenerator.QUESTIONS_PER_QUIZ`. -/
def QUESTIONS_PER_QUIZ : ℕ := 5

/-- Result of one `generate_for_country` call: the returned sample, the newly
persisted drafts, and how many times the generation backend
(`ai_generator.generate_questions`) was invoked. -/
structure GenResult where
  questions : List DBQuestion
  newQuestions : List DBQuestion
  backendCalls : ℕ
deriving DecidableEq

/-- `QuestionGenerator.generate_for_country` (lines 180-269).  The cached
pool, the country name, the dataset and the generation backend are explicit
parameters; persistence is modelled as the identity on the saved rows. -/
def generateForCountry (cached : List DBQuestion) (countryName : String)
    (ds : Dataset) (backend : String → CountryData → ℕ → List AIQuestion)
    (rng : List ℕ) : GenResult :=
  if QUESTIONS_POOL_SIZE ≤ cached.length then
    ⟨(randomSample QUESTIONS_PER_QUIZ cached rng).1, [], 0⟩
  else
    let needed := QUESTIONS_POOL_SIZE - cached.length
    match resolveCountryData ds countryName with
    | none =>
      if cached.isEmpty then ⟨[], [], 0⟩
      else ⟨(randomSample (min cached.length QUESTIONS_PER_QUIZ) cached rng).1, [], 0⟩
    | some cdata =>
      let aiQs := backend countryName cdata needed
      let newQs :=
        if aiQs.isEmpty then
          (generateQuestions ds countryName needed rng).map saveTemplateQuestion
        else aiQs.map saveAIQuestion
      let allQ := cached ++ newQs
      ⟨(randomSample (min allQ.length QUESTIONS_PER_QUIZ) allQ rng).1, newQs, 1⟩

/-- `QuestionGenerator.get_questions_for_country` (lines 271-285): the main
entry point.  `countries` is the country directory (upper-case ISO2 code to
name) and `cachedOf` the per-country cached pool. -/
def getQuestionsForCountry (countries : List (String × String))
    (cachedOf : String → List DBQuestion) (ds : Dataset)
    (backend : String → CountryData → ℕ → List AIQuestion) (rng : List ℕ)
    (code : String) : List DBQuestion × Option String :=
  match alookup countries (pyUpper code) with
  | none => ([], some ("Country not found: " ++ code))
  | some cname =>
    ((generateForCountry (cachedOf cname) cname ds backend rng).questions, none)

/-! ## Concrete instances used by the claims -/

/-- The C1 scenario draft: backend-supplied `correct_index = 0` with choices
`["1900","2100","2300","2600"]` and a prompt about GDP per capita. -/
def qScenario : AIQuestion :=
  { prompt := "What is the GDP per capita?",
    choices := ["1900", "2100", "2300", "2600"],
    correct_index := 0,
    difficulty := 1,
    explanation := some "The GDP per capita was 2300 USD in 2021." }

/-- The C1 scenario metrics map `{"GDP per capita": {value: 2300, year: 2021}}`. -/
def mScenario : List (String × MetricEntry) := [("GDP per capita", ⟨some (intToQ (Int.ofNat 2300)), some (Int.ofNat 2021)⟩)]

/-- A structurally valid draft whose distinct decimal choices collapse under
precision normalization. -/
def qCollapse : AIQuestion :=
  { prompt := "q", choices := ["45.6", "46.4", "50", "60"], correct_index := 0 }

/-- An all-numeric draft with a decimal-precision choice. -/
def qDecimals : AIQuestion :=
  { prompt := "w", choices := ["45.5%", "50%", "60%", "70%"], correct_index := 1 }

/-- A draft with a non-numeric choice (mixed formats). -/
def qMixed : AIQuestion :=
  { prompt := "w2", choices := ["low", "50%", "60%", "70%"], correct_index := 0 }

/-- An all-numeric draft with comma-grouped dollar magnitudes. -/
def qCommas : AIQuestion :=
  { prompt := "q", choices := ["$5,000", "$4,100", "$6,200", "$7,300"], correct_index := 0 }

/-- The `TEMPLATE_METRICS` entry for `cell_phones_per_100_people`
(a zero-decimal format with empty unit). -/
def cellPhonesInfo : MetricInfo := ⟨"cell phones per 100 people", "", .f0, "People & Society"⟩

/-- A dataset with one country whose only template metric is
`internet_users`. -/
def dsOneMetric : Dataset :=
  [("Testonia", [("People & Society", [("internet_users", ⟨some (155/2), some (Int.ofNat 2022)⟩)])])]

/-- A placeholder cached question row. -/
def dbQ (i : ℕ) : DBQuestion :=
  ⟨"p" ++ toString i, [], 0, 1, "", "", "", "", "dataset"⟩

/-- A cached pool of exactly `QUESTIONS_PER_QUIZ` drafts. -/
def cached5 : List DBQuestion := [dbQ 0, dbQ 1, dbQ 2, dbQ 3, dbQ 4]

/-- A cached pool of exactly `QUESTIONS_POOL_SIZE` drafts. -/
def cached10 : List DBQuestion :=
  [dbQ 0, dbQ 1, dbQ 2, dbQ 3, dbQ 4, dbQ 5, dbQ 6, dbQ 7, dbQ 8, dbQ 9]

/-- A dataset with a resolvable country that has no template metrics. -/
def dsTestland : Dataset := [("Testland", [("Economy", [("foo", ⟨some 1, some (Int.ofNat 2020)⟩)])])]

/-- A generation backend that always returns no drafts (unavailable / all
drafts rejected). -/
def backendNone : String → CountryData → ℕ → List AIQuestion := fun _ _ _ => []

/-- The country directory used by the C7 witness. -/
def countriesW : List (String × String) := [("XX", "Atlantis")]

/-- The cached pools used by the C7 witness. -/
def cachedOfW : String → List DBQuestion := fun n => if n = "Atlantis" then [dbQ 9] else []

/-- The dataset entry used by the C6 witness. -/
def cdWitness : CountryData :=
  [("Economy",
    [ ("gdppercapita_us_inflation_adjusted", ⟨some (intToQ (Int.ofNat 2300)), some (Int.ofNat 2021)⟩),
      ("notalisted", ⟨some 1, some (Int.ofNat 2021)⟩),
      ("inflation_annual_percent", ⟨some 5, some (Int.ofNat 1990)⟩),
      ("exports_percent_of_gdp", ⟨none, some (Int.ofNat 2021)⟩) ])]

/-- A dataset entry all of whose metrics are stale. -/
def cdStale : CountryData := [("Economy", [("internet_users", ⟨some 50, some (Int.ofNat 1990)⟩)])]

/-! ## Helper lemmas -/

/-- A fold preserves an invariant that each step preserves. -/
theorem foldl_preserve {α β : Type} {P : β → Prop} (f : β → α → β) :
    ∀ (l : List α) (b : β), (∀ b a, a ∈ l → P b → P (f b a)) → P b → P (l.foldl f b)
  | [], b, _, hb => hb
  | a :: t, b, h, hb =>
    foldl_preserve f t (f b a) (fun b' a' ha' => h b' a' (List.mem_cons_of_mem a ha'))
      (h b a (List.mem_cons_self a t) hb)

/-- A successful `alookup` witnesses membership. -/
theorem alookup_mem {α : Type} {l : List (String × α)} {k : String} {v : α}
    (h : alookup l k = some v) : (k, v) ∈ l := by
  unfold alookup at h
  cases hf : l.find? (fun p => decide (p.1 = k)) with
  | none => rw [hf] at h; exact absurd h (by simp)
  | some pr =>
    rw [hf] at h
    have hm := List.mem_of_find?_eq_some hf
    have hp := List.find?_some hf
    have hk : pr.1 = k := of_decide_eq_true hp
    cases h
    have : pr = (k, pr.2) := by
      cases pr; simp_all
    rw [this] at hm; exact hm

/-- Members of an `upsert` come from the list or are the new pair. -/
theorem upsert_mem {α : Type} : ∀ (l : List (String × α)) (k : String) (v : α) (p),
    p ∈ upsert l k v → p ∈ l ∨ p = (k, v)
  | [], k, v, p, h => by
    simp only [upsert] at h; right; simpa using h
  | (k', v') :: t, k, v, p, h => by
    simp only [upsert] at h
    by_cases hk : k' = k
    · rw [if_pos hk] at h
      rcases List.mem_cons.mp h with h1 | h1
      · right; exact h1
      · left; exact List.mem_cons_of_mem _ h1
    · rw [if_neg hk] at h
      rcases List.mem_cons.mp h with h1 | h1
      · left; rw [h1]; exact List.mem_cons_self _ _
      · rcases upsert_mem t k v p h1 with h2 | h2
        · left; exact List.mem_cons_of_mem _ h2
        · right; exact h2

/-- Keys of an `upsert` come from the keys or are the new key. -/
theorem upsert_keys {α : Type} (l : List (String × α)) (k : String) (v : α) (a : String)
    (h : a ∈ (upsert l k v).map Prod.fst) : a ∈ l.map Prod.fst ∨ a = k := by
  rcases List.mem_map.mp h with ⟨p, hp, hpa⟩
  rcases upsert_mem l k v p hp with h1 | h1
  · left; exact hpa ▸ List.mem_map_of_mem Prod.fst h1
  · right; rw [h1] at hpa; exact hpa.symm

/-- `upsert` keeps the keys duplicate-free. -/
theorem upsert_keys_nodup {α : Type} : ∀ (l : List (String × α)) (k : String) (v : α),
    (l.map Prod.fst).Nodup → ((upsert l k v).map Prod.fst).Nodup
  | [], k, v, _ => by simp [upsert]
  | (k', v') :: t, k, v, h => by
    simp only [List.map_cons, List.nodup_cons] at h
    by_cases hk : k' = k
    · simp only [upsert, if_pos hk, List.map_cons, List.nodup_cons]
      exact ⟨hk ▸ h.1, h.2⟩
    · simp only [upsert, if_neg hk, List.map_cons, List.nodup_cons]
      refine ⟨fun hc => ?_, upsert_keys_nodup t k v h.2⟩
      rcases upsert_keys t k v k' hc with h1 | h1
      · exact h.1 h1
      · exact hk h1

/-- `List.get?` hits are members. -/
theorem get?_mem' {α : Type} : ∀ (l : List α) (i : ℕ) (a : α), l.get? i = some a → a ∈ l
  | [], i, a, h => by simp at h
  | x :: t, 0, a, h => by
    simp only [List.get?] at h; cases h; exact List.mem_cons_self _ _
  | x :: t, i + 1, a, h => List.mem_cons_of_mem _ (get?_mem' t i a h)

/-- `randomSample` only returns members of the population. -/
theorem randomSample_mem {α : Type} : ∀ (k : ℕ) (xs : List α) (rng : List ℕ) (a : α),
    a ∈ (randomSample k xs rng).1 → a ∈ xs
  | 0, _, _, a, h => by simp [randomSample] at h
  | _ + 1, [], _, a, h => by simp [randomSample] at h
  | k + 1, x :: xs, rng, a, h => by
    simp only [randomSample] at h
    rcases List.mem_cons.mp h with h1 | h1
    · rw [h1]
      have hi : rng.headD 0 % (x :: xs).length < (x :: xs).length :=
        Nat.mod_lt _ (by simp)
      cases hg : (x :: xs).get? (rng.headD 0 % (x :: xs).length) with
      | none =>
        rw [List.getD, hg]; exact List.mem_cons_self _ _
      | some y =>
        rw [List.getD, hg]; exact get?_mem' _ _ _ hg
    · have := randomSample_mem k ((x :: xs).eraseIdx (rng.headD 0 % (x :: xs).length)) rng.tail a h1
      exact List.eraseIdx_subset _ _ this

/-- `randomSample` returns `min k |population|` elements. -/
theorem randomSample_length {α : Type} : ∀ (k : ℕ) (xs : List α) (rng : List ℕ),
    (randomSample k xs rng).1.length = min k xs.length
  | 0, xs, rng => by simp [randomSample]
  | k + 1, [], rng => by simp [randomSample]
  | k + 1, x :: xs, rng => by
    simp only [randomSample, List.length_cons]
    have hi : rng.headD 0 % (xs.length + 1) < (x :: xs).length := by
      simp only [List.length_cons]; exact Nat.mod_lt _ (by omega)
    have hlen : ((x :: xs).eraseIdx (rng.headD 0 % (xs.length + 1))).length = xs.length := by
      rw [List.length_eraseIdx_of_lt hi]; simp
    rw [randomSample_length k _ rng.tail, hlen]
    omega

/-- `dedupSortedInsert` only adds the new element. -/
theorem dedupSortedInsert_mem : ∀ (x : ℚ) (l : List ℚ) (a : ℚ),
    a ∈ dedupSortedInsert x l → a = x ∨ a ∈ l
  | x, [], a, h => by simp [dedupSortedInsert] at h; left; exact h
  | x, y :: t, a, h => by
    simp only [dedupSortedInsert] at h
    by_cases h1 : x < y
    · rw [if_pos h1] at h
      rcases List.mem_cons.mp h with h2 | h2
      · left; exact h2
      · right; exact h2
    · rw [if_neg h1] at h
      by_cases h2 : x = y
      · rw [if_pos h2] at h; right; exact h
      · rw [if_neg h2] at h
        rcases List.mem_cons.mp h with h3 | h3
        · right; rw [h3]; exact List.mem_cons_self _ _
        · rcases dedupSortedInsert_mem x t a h3 with h4 | h4
          · left; exact h4
          · right; exact List.mem_cons_of_mem _ h4

/-- `dedupSortedInsert` preserves strict sortedness. -/
theorem dedupSortedInsert_pairwise : ∀ (x : ℚ) (l : List ℚ),
    l.Pairwise (· < ·) → (dedupSortedInsert x l).Pairwise (· < ·)
  | x, [], _ => by simp [dedupSortedInsert]
  | x, y :: t, h => by
    simp only [dedupSortedInsert]
    rcases List.pairwise_cons.mp h with ⟨hy, ht⟩
    by_cases h1 : x < y
    · rw [if_pos h1]
      exact List.pairwise_cons.mpr ⟨fun a ha => by
        rcases List.mem_cons.mp ha with h2 | h2
        · rw [h2]; exact h1
        · exact lt_trans h1 (hy a h2), h⟩
    · rw [if_neg h1]
      by_cases h2 : x = y
      · rw [if_pos h2]; exact h
      · rw [if_neg h2]
        have hyx : y < x := by
          rcases lt_trichotomy x y with h3 | h3 | h3
          · exact absurd h3 h1
          · exact absurd h3 h2
          · exact h3
        refine List.pairwise_cons.mpr ⟨fun a ha => ?_, dedupSortedInsert_pairwise x t ht⟩
        rcases dedupSortedInsert_mem x t a ha with h3 | h3
        · rw [h3]; exact hyx
        · exact hy a h3

/-- `dedupSorted` output is strictly sorted. -/
theorem dedupSorted_pairwise (l : List ℚ) : (dedupSorted l).Pairwise (· < ·) := by
  unfold dedupSorted
  exact foldl_preserve _ l [] (fun acc x _ hacc => dedupSortedInsert_pairwise x acc hacc)
    List.Pairwise.nil

/-- `dedupSorted` output members come from the input. -/
theorem dedupSorted_mem (l : List ℚ) (a : ℚ) (h : a ∈ dedupSorted l) : a ∈ l := by
  unfold dedupSorted at h
  have : ∀ b ∈ dedupSorted l, b ∈ l := by
    unfold dedupSorted
    refine foldl_preserve (P := fun acc => ∀ b ∈ acc, b ∈ l) _ l [] ?_ (by simp)
    intro acc x hx hacc b hb
    rcases dedupSortedInsert_mem x acc b hb with h1 | h1
    · rw [h1]; exact hx
    · exact hacc b h1
  exact this a h

/-- With a non-empty accumulator, the best-match scan always returns a result. -/
theorem bma_ne_none (actual : ℚ) : ∀ (l : List (Option ℚ)) (i : ℕ) (p : ℕ × ℚ),
    bestMatchAux actual l i (some p) ≠ none
  | [], i, p => by simp [bestMatchAux]
  | none :: t, i, p => bma_ne_none actual t (i + 1) p
  | some x :: t, i, p => by
    simp only [bestMatchAux]
    rcases p with ⟨bi, bd⟩
    by_cases h : |x - actual| < bd
    · rw [if_pos h]; exact bma_ne_none actual t (i + 1) _
    · rw [if_neg h]; exact bma_ne_none actual t (i + 1) _

/-- Starting from an empty accumulator, the scan fails exactly when no
choice parsed. -/
theorem bma_none_iff (actual : ℚ) : ∀ (l : List (Option ℚ)) (i : ℕ),
    bestMatchAux actual l i none = none ↔ ∀ o ∈ l, o = none
  | [], i => by simp [bestMatchAux]
  | none :: t, i => by
    simp only [bestMatchAux]
    rw [bma_none_iff actual t (i + 1)]
    constructor
    · intro h o ho
      rcases List.mem_cons.mp ho with h1 | h1
      · exact h1
      · exact h o h1
    · intro h o ho; exact h o (List.mem_cons_of_mem _ ho)
  | some x :: t, i => by
    simp only [bestMatchAux]
    constructor
    · intro h; exact absurd h (bma_ne_none actual t (i + 1) _)
    · intro h
      exact absurd (h (some x) (List.mem_cons_self _ _)) (by simp)

/-- Characterization of a successful best-match scan: the result comes from
the list (offset by the start index) or from the accumulator, it is a lower
bound on every parsed difference in the list, and it does not exceed the
accumulator's difference. -/
theorem bma_spec (actual : ℚ) : ∀ (l : List (Option ℚ)) (i : ℕ) (acc : Option (ℕ × ℚ))
    (r : ℕ × ℚ), bestMatchAux actual l i acc = some r →
    ((∃ j x, l.get? j = some (some x) ∧ r.1 = i + j ∧ r.2 = |x - actual|) ∨ acc = some r)
    ∧ (∀ j x, l.get? j = some (some x) → r.2 ≤ |x - actual|)
    ∧ (∀ p, acc = some p → r.2 ≤ p.2)
  | [], i, acc, r, h => by
    simp only [bestMatchAux] at h
    refine ⟨Or.inr h, ?_, ?_⟩
    · intro j x hj; simp at hj
    · intro p hp; rw [hp] at h; cases h; exact le_refl _
  | none :: t, i, acc, r, h => by
    simp only [bestMatchAux] at h
    obtain ⟨h1, h2, h3⟩ := bma_spec actual t (i + 1) acc r h
    refine ⟨?_, ?_, h3⟩
    · rcases h1 with ⟨j, x, hj, hr1, hr2⟩ | h1
      · exact Or.inl ⟨j + 1, x, by simpa using hj, by omega, hr2⟩
      · exact Or.inr h1
    · intro j x hj
      cases j with
      | zero => simp at hj
      | succ j' => exact h2 j' x (by simpa using hj)
  | some x :: t, i, none, r, h => by
    simp only [bestMatchAux] at h
    obtain ⟨h1, h2, h3⟩ := bma_spec actual t (i + 1) (some (i, |x - actual|)) r h
    have hbound : r.2 ≤ |x - actual| := h3 _ rfl
    refine ⟨?_, ?_, ?_⟩
    · rcases h1 with ⟨j, y, hj, hr1, hr2⟩ | h1
      · exact Or.inl ⟨j + 1, y, by simpa using hj, by omega, hr2⟩
      · exact Or.inl ⟨0, x, by simp, by {cases h1; simp}, by {cases h1; rfl}⟩
    · intro j y hj
      cases j with
      | zero => simp at hj; rw [← hj]; exact hbound
      | succ j' => exact h2 j' y (by simpa using hj)
    · intro p hp; simp at hp
  | some x :: t, i, some (bi, bd), r, h => by
    simp only [bestMatchAux] at h
    by_cases hlt : |x - actual| < bd
    · rw [if_pos hlt] at h
      obtain ⟨h1, h2, h3⟩ := bma_spec actual t (i + 1) (some (i, |x - actual|)) r h
      have hbound : r.2 ≤ |x - actual| := h3 _ rfl
      refine ⟨?_, ?_, ?_⟩
      · rcases h1 with ⟨j, y, hj, hr1, hr2⟩ | h1
        · exact Or.inl ⟨j + 1, y, by simpa using hj, by omega, hr2⟩
        · exact Or.inl ⟨0, x, by simp, by {cases h1; simp}, by {cases h1; rfl}⟩
      · intro j y hj
        cases j with
        | zero => simp at hj; rw [← hj]; exact hbound
        | succ j' => exact h2 j' y (by simpa using hj)
      · intro p hp
        cases hp
        exact le_of_lt (lt_of_le_of_lt hbound hlt)
    · rw [if_neg hlt] at h
      obtain ⟨h1, h2, h3⟩ := bma_spec actual t (i + 1) (some (bi, bd)) r h
      have hbound : r.2 ≤ bd := h3 _ rfl
      refine ⟨?_, ?_, ?_⟩
      · rcases h1 with ⟨j, y, hj, hr1, hr2⟩ | h1
        · exact Or.inl ⟨j + 1, y, by simpa using hj, by omega, hr2⟩
        · exact Or.inr (by rw [← h1])
      · intro j y hj
        cases j with
        | zero =>
          simp at hj; rw [← hj]
          exact le_trans hbound (le_of_not_lt hlt)
        | succ j' => exact h2 j' y (by simpa using hj)
      · intro p hp; cases hp; exact hbound

/-- Precision normalization keeps the choice count, the prompt and the
correct index. -/
theorem normalize_shape (q : AIQuestion) :
    (normalizeChoicePrecision q).choices.length = q.choices.length ∧
    (normalizeChoicePrecision q).prompt = q.prompt ∧
    (normalizeChoicePrecision q).correct_index = q.correct_index := by
  unfold normalizeChoicePrecision
  by_cases h1 : q.choices.isEmpty
  · rw [if_pos h1]; exact ⟨rfl, rfl, rfl⟩
  · rw [if_neg h1]
    by_cases h2 : (q.choices.map parseChoice).all Option.isSome
    · rw [if_pos h2]
      refine ⟨?_, rfl, rfl⟩
      simp
    · rw [if_neg h2]; exact ⟨rfl, rfl, rfl⟩

/-- A repaired draft keeps the prompt and the choices of its input. -/
theorem vafa_shape (q : AIQuestion) (metrics : List (String × MetricEntry))
    (q' : AIQuestion) (h : validateAndFixAnswer q metrics = some q') :
    q'.choices = q.choices ∧ q'.prompt = q.prompt := by
  unfold validateAndFixAnswer at h
  split at h
  · cases h; exact ⟨rfl, rfl⟩
  · dsimp only at h
    split at h
    · cases h
    · split at h
      · cases h
      · split at h
        · cases h; exact ⟨rfl, rfl⟩
        · cases h; exact ⟨rfl, rfl⟩

/-- If a matched draft is rejected, every parsed choice is farther from the
actual value than the tolerance. -/
theorem vafa_none_spec (q : AIQuestion) (metrics : List (String × MetricEntry))
    (mname : String) (actual : ℚ)
    (h : findMatchingMetric q.prompt metrics = some (mname, actual))
    (hn : validateAndFixAnswer q metrics = none) :
    ∀ i x, (q.choices.map extractNumberFromText).get? i = some (some x) →
      max (actual * (15/100)) 2 < |x - actual| := by
  intro i x hi
  unfold validateAndFixAnswer at hn
  rw [h] at hn
  dsimp only at hn
  split at hn
  · rename_i heq
    have hall := (bma_none_iff actual (q.choices.map extractNumberFromText) 0).mp heq
    have hmem : some x ∈ q.choices.map extractNumberFromText := get?_mem' _ _ _ hi
    exact absurd (hall _ hmem) (by simp)
  · rename_i bi bd heq
    split at hn
    · rename_i htol
      obtain ⟨_, h2, _⟩ := bma_spec actual _ 0 none _ heq
      exact lt_of_lt_of_le htol (h2 i x hi)
    · split at hn <;> cases hn

/-- If every parsed choice is farther than the tolerance, the matched draft
is rejected. -/
theorem vafa_none_intro (q : AIQuestion) (metrics : List (String × MetricEntry))
    (mname : String) (actual : ℚ)
    (h : findMatchingMetric q.prompt metrics = some (mname, actual))
    (hall : ∀ i x, (q.choices.map extractNumberFromText).get? i = some (some x) →
      max (actual * (15/100)) 2 < |x - actual|) :
    validateAndFixAnswer q metrics = none := by
  unfold validateAndFixAnswer
  rw [h]
  dsimp only
  cases hb : bestMatchAux actual (q.choices.map extractNumberFromText) 0 none with
  | none => rfl
  | some r =>
    rcases r with ⟨bi, bd⟩
    dsimp only
    obtain ⟨h1, _, _⟩ := bma_spec actual _ 0 none _ hb
    rcases h1 with ⟨j, x, hj, _, hr2⟩ | h1
    · simp only at hr2
      have := hall j x hj
      rw [← hr2] at this
      rw [if_pos this]
    · cases h1

/-- If a matched draft is accepted, the repaired index points at a parsed
choice that is within tolerance and minimises the difference, and the rest
of the draft is untouched. -/
theorem vafa_accept_spec (q : AIQuestion) (metrics : List (String × MetricEntry))
    (mname : String) (actual : ℚ)
    (h : findMatchingMetric q.prompt metrics = some (mname, actual))
    (q' : AIQuestion) (hs : validateAndFixAnswer q metrics = some q') :
    ∃ i x, (q.choices.map extractNumberFromText).get? i = some (some x) ∧
      |x - actual| ≤ max (actual * (15/100)) 2 ∧
      (∀ j y, (q.choices.map extractNumberFromText).get? j = some (some y) →
        |x - actual| ≤ |y - actual|) ∧
      q'.correct_index = (i : ℤ) ∧ q'.choices = q.choices ∧ q'.prompt = q.prompt := by
  unfold validateAndFixAnswer at hs
  rw [h] at hs
  dsimp only at hs
  split at hs
  · cases hs
  · rename_i bi bd heq
    obtain ⟨h1, h2, _⟩ := bma_spec actual _ 0 none _ heq
    split at hs
    · cases hs
    · rename_i htol
      rcases h1 with ⟨j, x, hj, hr1, hr2⟩ | h1
      · simp only at hr1 hr2
        refine ⟨j, x, hj, ?_, ?_, ?_, ?_, ?_⟩
        · rw [← hr2]; exact le_of_not_lt htol
        · intro j' y hj'; rw [← hr2]; exact h2 j' y hj'
        · have : bi = j := by omega
          subst this
          split at hs <;> {cases hs; rfl}
        · split at hs <;> {cases hs; rfl}
        · split at hs <;> {cases hs; rfl}
      · cases h1

/-- Claim C1: for a draft whose prompt is matched to a metric with true
value `actual`, the engine parses a numeric token out of each choice,
computes `tolerance = max(0.15 * actual, 2)`, and rejects the draft exactly
when every parsed choice is farther from `actual` than the tolerance;
otherwise it accepts the draft with `correct_index` overwritten to a parsed
choice of minimal absolute difference, leaving prompt and choices unchanged.
(The concrete GDP-per-capita scenario is instantiated in the witness.) -/
theorem c1_tolerance_validation_and_index_repair
    (q : AIQuestion) (metrics : List (String × MetricEntry)) (mname : String) (actual : ℚ)
    (h : findMatchingMetric q.prompt metrics = some (mname, actual)) :
    (validateAndFixAnswer q metrics = none ↔
      ∀ i x, (q.choices.map extractNumberFromText).get? i = some (some x) →
        max (actual * (15/100)) 2 < |x - actual|)
    ∧ (∀ q', validateAndFixAnswer q metrics = some q' →
        ∃ i x, (q.choices.map extractNumberFromText).get? i = some (some x) ∧
          |x - actual| ≤ max (actual * (15/100)) 2 ∧
          (∀ j y, (q.choices.map extractNumberFromText).get? j = some (some y) →
            |x - actual| ≤ |y - actual|) ∧
          q'.correct_index = (i : ℤ) ∧ q'.choices = q.choices ∧ q'.prompt = q.prompt) :=
  ⟨⟨vafa_none_spec q metrics mname actual h, vafa_none_intro q metrics mname actual h⟩,
    fun q' hs => vafa_accept_spec q metrics mname actual h q' hs⟩

attribute [local semireducible] Rat.add Rat.mul Rat.inv Rat.sub in
/-- Witness for C1: the spec scenario.  With metrics
`{"GDP per capita": {value: 2300, year: 2021}}` and backend choices
`["1900","2100","2300","2600"]` at `correct_index = 0`, the engine accepts
the draft with `correct_index` repaired to 2 and the other fields unchanged,
and the general characterization holds at this input. -/
theorem c1_witness :
    (validateAndFixAnswer qScenario mScenario = some { qScenario with correct_index := 2 }) ∧
    ((validateAndFixAnswer qScenario mScenario = none ↔
      ∀ i x, (qScenario.choices.map extractNumberFromText).get? i = some (some x) →
        max (intToQ (Int.ofNat 2300) * (15/100)) 2 < |x - intToQ (Int.ofNat 2300)|)
    ∧ (∀ q', validateAndFixAnswer qScenario mScenario = some q' →
        ∃ i x, (qScenario.choices.map extractNumberFromText).get? i = some (some x) ∧
          |x - intToQ (Int.ofNat 2300)| ≤ max (intToQ (Int.ofNat 2300) * (15/100)) 2 ∧
          (∀ j y, (qScenario.choices.map extractNumberFromText).get? j = some (some y) →
            |x - intToQ (Int.ofNat 2300)| ≤ |y - intToQ (Int.ofNat 2300)|) ∧
          q'.correct_index = (i : ℤ) ∧ q'.choices = qScenario.choices ∧
          q'.prompt = qScenario.prompt)) :=
  ⟨by decide,
   c1_tolerance_validation_and_index_repair qScenario mScenario "GDP per capita" (intToQ (Int.ofNat 2300))
     (by decide)⟩

/-- A rational with denominator other than 1 is not an integer (in the
`intToQ` sense). -/
theorem not_intQ_of_den (q : ℚ) (h : q.den ≠ 1) : ¬∃ k : ℤ, q = intToQ k :=
  fun ⟨k, hk⟩ => h (by rw [hk]; rfl)

/-- Claim C5: if all choices parse as (currency, magnitude, suffix) and at
least one magnitude carries decimal precision, the normalizer rounds every
magnitude with `int(round(.))` and re-renders it with its original currency
and suffix (`renderRounded`); and if any choice fails to parse, the
normalizer leaves the draft unchanged. -/
theorem c5_normalizer_rounds_or_noop (q : AIQuestion) :
    ((∃ c ∈ q.choices, parseChoice c = none) → normalizeChoicePrecision q = q)
    ∧ (q.choices ≠ [] →
       (∀ c ∈ q.choices, (parseChoice c).isSome) →
       (∃ c ∈ q.choices, ∃ cur mag su, parseChoice c = some (cur, mag, su) ∧
         ¬∃ k : ℤ, mag = intToQ k) →
       normalizeChoicePrecision q = { q with choices := q.choices.map (fun c =>
         match parseChoice c with
         | some (cur, mag, su) => renderRounded cur mag su
         | none => c) }) := by
  constructor
  · rintro ⟨c, hc, hpc⟩
    unfold normalizeChoicePrecision
    by_cases h1 : q.choices.isEmpty
    · rw [if_pos h1]
    · rw [if_neg h1]
      dsimp only
      split
      · rename_i hall
        exfalso
        have hmem : parseChoice c ∈ q.choices.map parseChoice := List.mem_map_of_mem _ hc
        have := List.all_eq_true.mp hall _ hmem
        rw [hpc] at this
        simp at this
      · rfl
  · intro hne hall hdec
    unfold normalizeChoicePrecision
    have h1 : q.choices.isEmpty = false := by
      cases hq : q.choices with
      | nil => exact absurd hq hne
      | cons a t => rfl
    rw [h1]
    simp only [Bool.false_eq_true, if_false]
    have h2 : (q.choices.map parseChoice).all Option.isSome = true := by
      apply List.all_eq_true.mpr
      intro o ho
      rcases List.mem_map.mp ho with ⟨c, hc, hoc⟩
      rw [← hoc]
      exact hall c hc
    rw [if_pos h2]
    have h3 : (q.choices.map parseChoice).map (fun p =>
        match p with
        | some (cur, mag, su) => renderRounded cur mag su
        | none => "") = q.choices.map (fun c =>
        match parseChoice c with
        | some (cur, mag, su) => renderRounded cur mag su
        | none => c) := by
      rw [List.map_map]
      apply List.map_congr_left
      intro c hc
      have := hall c hc
      cases hp : parseChoice c with
      | none => rw [hp] at this; simp at this
      | some triple => simp [Function.comp, hp]
    rw [h3]

attribute [local semireducible] Rat.add Rat.mul Rat.inv Rat.sub in
/-- Witness for C5: a mixed-format draft is left untouched, and an
all-numeric draft with a decimal choice is rounded choice-wise
(`["45.5%","50%","60%","70%"]` becomes `["46%","50%","60%","70%"]`). -/
theorem c5_witness :
    (normalizeChoicePrecision qMixed = qMixed) ∧
    (normalizeChoicePrecision qDecimals = { qDecimals with choices := qDecimals.choices.map (fun c =>
      match parseChoice c with
      | some (cur, mag, su) => renderRounded cur mag su
      | none => c) }) ∧
    (normalizeChoicePrecision qDecimals).choices = ["46%", "50%", "60%", "70%"] :=
  ⟨(c5_normalizer_rounds_or_noop qMixed).1 ⟨"low", by decide, by decide⟩,
   (c5_normalizer_rounds_or_noop qDecimals).2 (by decide)
     (by decide)
     ⟨"45.5%", by decide, "", 91/2, "%", by decide,
       not_intQ_of_den _ (by decide)⟩,
   by decide⟩

attribute [local semireducible] Rat.add Rat.mul Rat.inv Rat.sub in
/-- Claim C10: in an all-numeric choice set, a comma-grouped magnitude such
as `"$5,000"` is parsed as magnitude 5 with unit suffix `",000"`, so the
normalizer re-renders it as `"$5 ,000"`, whose displayed numeric value (5)
differs from the value denoted by the input choice (5000). -/
theorem c10_comma_group_parsed_as_suffix :
    (∀ c ∈ qCommas.choices, (parseChoice c).isSome) ∧
    parseChoice "$5,000" = some ("$", 5, ",000") ∧
    (normalizeChoicePrecision qCommas).choices = ["$5 ,000", "$4 ,100", "$6 ,200", "$7 ,300"] ∧
    extractNumberFromText "$5,000" = some (intToQ (Int.ofNat 5000)) ∧
    extractNumberFromText "$5 ,000" = some 5 ∧
    intToQ (Int.ofNat 5000) ≠ 5 := by decide

attribute [local semireducible] Rat.add Rat.mul Rat.inv Rat.sub in
/-- Counterexample for C2: the draft `qCollapse` passes structural
validation (4 pairwise distinct choices), yet the accepted draft produced by
the AI pipeline has choices `["46","46","50","60"]`, which are not pairwise
distinct: precision normalization runs after the distinctness check and can
merge choices. -/
theorem c2_counterexample :
    validateQuestion qCollapse = true ∧
    processDraft [] qCollapse = some { qCollapse with choices := ["46", "46", "50", "60"] } ∧
    ¬ (({ qCollapse with choices := ["46", "46", "50", "60"] } : AIQuestion).choices.Nodup) := by
  decide

/-- Claim C2 (amended): every accepted AI draft had exactly 4 pairwise
distinct choices (as stripped strings) at structural-validation time, and
the accepted draft still has exactly 4 choices; distinctness after precision
normalization is not guaranteed. -/
theorem c2_four_choices_distinct_at_validation :
    ∀ (metrics : List (String × MetricEntry)) (q q' : AIQuestion),
      processDraft metrics q = some q' →
      validateQuestion q = true ∧ q.choices.length = 4 ∧
      (q.choices.map pyStrip).Nodup ∧ q'.choices.length = 4 := by
  intro metrics q q' h
  unfold processDraft at h
  split at h
  case isFalse => cases h
  case isTrue hval =>
    have hlen : q.choices.length = 4 ∧ ((q.choices.map pyStrip).dedup).length = 4 := by
      unfold validateQuestion at hval
      simp only [Bool.and_eq_true, decide_eq_true_eq] at hval
      exact ⟨hval.1.1.1, hval.1.1.2⟩
    have hnodup : (q.choices.map pyStrip).Nodup := by
      have hsub : (q.choices.map pyStrip).dedup.Sublist (q.choices.map pyStrip) :=
        List.dedup_sublist _
      have heq : (q.choices.map pyStrip).dedup = q.choices.map pyStrip :=
        hsub.eq_of_length (by rw [hlen.2, List.length_map, hlen.1])
      exact List.dedup_eq_self.mp heq
    refine ⟨hval, hlen.1, hnodup, ?_⟩
    have h1 := (vafa_shape _ metrics q' h).1
    have h2 := (normalize_shape q).1
    rw [h1, h2, hlen.1]

attribute [local semireducible] Rat.add Rat.mul Rat.inv Rat.sub in
/-- Witness for C2 (amended): instantiated on the accepted draft obtained
from `qDecimals`. -/
theorem c2_witness :
    validateQuestion qDecimals = true ∧ qDecimals.choices.length = 4 ∧
    (qDecimals.choices.map pyStrip).Nodup ∧
    (({ qDecimals with choices := ["46%", "50%", "60%", "70%"] } : AIQuestion)).choices.length = 4 :=
  c2_four_choices_distinct_at_validation [] qDecimals
    { qDecimals with choices := ["46%", "50%", "60%", "70%"] }
    (by decide)

attribute [local semireducible] Rat.add Rat.mul Rat.inv Rat.sub in
/-- Counterexample for C4: for true value 4 under the zero-decimal
`cell_phones_per_100_people` format, a fallback run produces the choice set
`["3","3","2","4"]` — the raw candidates 2.8 and 3 are distinct after
`round(v, 1)` but render to the same string `"3"`; deduplication is not by
formatted string. -/
theorem c4_counterexample :
    alookup TEMPLATE_METRICS "cell_phones_per_100_people" = some cellPhonesInfo ∧
    (generatePlausibleChoices 4 cellPhonesInfo 4 [1, 1, 0]).1 = (["3", "3", "2", "4"], 3) ∧
    ¬ (["3", "3", "2", "4"] : List String).Nodup := by
  decide

/-- Claim C4 (amended): the fallback candidate variations are deduplicated
by their raw value rounded to one decimal (`sorted(set(round(v,1)))`), so
the candidate list is pairwise distinct as rationals and every candidate is
a multiple of one tenth — which prevents duplicate rendering under
one-decimal formats (the 45.96/46.04 regression target) but not under
zero-decimal formats. -/
theorem c4_candidates_distinct_as_rounded_values :
    ∀ c : ℚ, (variationsFor c).Nodup ∧
      ∀ v ∈ variationsFor c, ∃ k : ℤ, v = intToQ k / 10 := by
  intro c
  constructor
  · exact (dedupSorted_pairwise _).imp (fun h => ne_of_lt h)
  · intro v hv
    have hm := dedupSorted_mem _ v hv
    rcases List.mem_map.mp hm with ⟨u, _, hu⟩
    exact ⟨roundHalfEven (u * 10), by rw [← hu]; rfl⟩

attribute [local semireducible] Rat.add Rat.mul Rat.inv Rat.sub in
/-- Witness for C4 (amended): the concrete candidate list for true value 4. -/
theorem c4_witness :
    variationsFor 4 = [2, 14/5, 3, 17/5, 23/5, 5, 26/5, 6] ∧
    (variationsFor 4).Nodup ∧
    (∀ v ∈ variationsFor 4, ∃ k : ℤ, v = intToQ k / 10) :=
  ⟨by decide,
   (c4_candidates_distinct_as_rounded_values 4).1,
   (c4_candidates_distinct_as_rounded_values 4).2⟩

/-- Each generator of a deficit-fill round contributes at most one question. -/
theorem runGenerators_length_le (countryName : String) (cd : CountryData) :
    ∀ (gs : List GenKind) (rng : List ℕ),
      (runGenerators countryName cd gs rng).length ≤ gs.length
  | [], _ => by simp [runGenerators]
  | g :: t, rng => by
    unfold runGenerators
    cases g <;> {
      dsimp only
      split
      · simp only [List.length_cons]
        exact Nat.succ_le_succ (runGenerators_length_le countryName cd t _)
      · exact Nat.le_succ_of_le (runGenerators_length_le countryName cd t _)
    }

/-- A deficit-fill round of the template generator yields at most
`min count 3` questions. -/
theorem generateQuestions_length_le (ds : Dataset) (countryName : String)
    (count : ℕ) (rng : List ℕ) :
    (generateQuestions ds countryName count rng).length ≤ min count 3 := by
  unfold generateQuestions
  split
  · simp
  · split
    · simp
    · calc (runGenerators countryName _ (GENERATORS.take count) rng).length
          ≤ (GENERATORS.take count).length := runGenerators_length_le _ _ _ _
        _ = min count 3 := by simp [GENERATORS]

/-- Claim C9: the fallback template generator returns at most
`min count 3` questions (two value generators and one comparison generator),
so a fallback-only deficit-fill round adds at most 3 drafts to the pool. -/
theorem c9_template_round_caps_at_three :
    (∀ (ds : Dataset) (countryName : String) (count : ℕ) (rng : List ℕ),
      (generateQuestions ds countryName count rng).length ≤ min count 3)
    ∧ (∀ (cached : List DBQuestion) (countryName : String) (ds : Dataset) (rng : List ℕ),
      ((generateForCountry cached countryName ds backendNone rng).newQuestions).length ≤ 3) := by
  refine ⟨generateQuestions_length_le, ?_⟩
  intro cached countryName ds rng
  unfold generateForCountry
  split
  · simp
  · split
    · split <;> simp
    · rename_i cd hcd
      dsimp only
      rw [if_pos (by rfl : (backendNone countryName cd (QUESTIONS_POOL_SIZE - cached.length)).isEmpty = true)]
      rw [List.length_map]
      calc (generateQuestions ds countryName (QUESTIONS_POOL_SIZE - cached.length) rng).length
          ≤ min (QUESTIONS_POOL_SIZE - cached.length) 3 :=
            generateQuestions_length_le ds countryName _ rng
        _ ≤ 3 := min_le_right _ _

attribute [local semireducible] Rat.add Rat.mul Rat.inv Rat.sub in
/-- Witness for C9: a requested count of 10 still yields at most 3 (here
exactly 2) template questions, and a fallback-only round on `dsTestland`
adds at most 3 drafts. -/
theorem c9_witness :
    (generateQuestions dsOneMetric "Testonia" 10 []).length ≤ min 10 3 ∧
    ((generateForCountry [] "Testonia" dsOneMetric backendNone []).newQuestions).length ≤ 3 ∧
    (generateQuestions dsOneMetric "Testonia" 10 []).length = 2 :=
  ⟨c9_template_round_caps_at_three.1 dsOneMetric "Testonia" 10 [],
   c9_template_round_caps_at_three.2 [] "Testonia" dsOneMetric [],
   by decide⟩

/-- Counterexample for C3: with a pool of exactly `QUESTIONS_PER_QUIZ = 5`
cached drafts (at least QUIZ_SIZE), a quiz request still invokes the
generation backend once: the early-return threshold in the code is
`QUESTIONS_POOL_SIZE = 10`, not `QUESTIONS_PER_QUIZ`. -/
theorem c3_counterexample :
    QUESTIONS_PER_QUIZ ≤ cached5.length ∧
    (generateForCountry cached5 "Testland" dsTestland backendNone []).backendCalls = 1 := by
  decide

/-- Claim C3 (amended): once a country's pool size is at least
`QUESTIONS_POOL_SIZE` (not QUIZ_SIZE), a quiz request makes zero backend
calls, persists nothing new, and immediately returns a random sample of
exactly `QUESTIONS_PER_QUIZ` cached drafts. -/
theorem c3_full_pool_skips_backend
    (cached : List DBQuestion) (countryName : String) (ds : Dataset)
    (backend : String → CountryData → ℕ → List AIQuestion) (rng : List ℕ)
    (h : QUESTIONS_POOL_SIZE ≤ cached.length) :
    (generateForCountry cached countryName ds backend rng).backendCalls = 0 ∧
    (generateForCountry cached countryName ds backend rng).newQuestions = [] ∧
    (generateForCountry cached countryName ds backend rng).questions.length = QUESTIONS_PER_QUIZ ∧
    ∀ x ∈ (generateForCountry cached countryName ds backend rng).questions, x ∈ cached := by
  unfold generateForCountry
  rw [if_pos h]
  refine ⟨rfl, rfl, ?_, ?_⟩
  · rw [randomSample_length]
    have : QUESTIONS_PER_QUIZ ≤ cached.length :=
      le_trans (by decide) h
    omega
  · intro x hx
    exact randomSample_mem _ _ _ _ hx

/-- Witness for C3 (amended): a full pool of 10 drafts. -/
theorem c3_witness :
    (generateForCountry cached10 "Testland" dsTestland backendNone []).backendCalls = 0 ∧
    (generateForCountry cached10 "Testland" dsTestland backendNone []).newQuestions = [] ∧
    (generateForCountry cached10 "Testland" dsTestland backendNone []).questions.length =
      QUESTIONS_PER_QUIZ ∧
    ∀ x ∈ (generateForCountry cached10 "Testland" dsTestland backendNone []).questions,
      x ∈ cached10 :=
  c3_full_pool_skips_backend cached10 "Testland" dsTestland backendNone [] (by decide)

/-- Claim C7: the entry point returns an empty list with a non-null error
string when the country code is unknown; and when the country is known but
no dataset entry resolves under the canonical name, any alias, or case
variant, it returns questions drawn from the cached pool (possibly none)
with no error. -/
theorem c7_entry_point_error_handling
    (countries : List (String × String)) (cachedOf : String → List DBQuestion)
    (ds : Dataset) (backend : String → CountryData → ℕ → List AIQuestion)
    (rng : List ℕ) (code : String) :
    (alookup countries (pyUpper code) = none →
      getQuestionsForCountry countries cachedOf ds backend rng code =
        ([], some ("Country not found: " ++ code)))
    ∧ (∀ cname, alookup countries (pyUpper code) = some cname →
        resolveCountryData ds cname = none →
        (getQuestionsForCountry countries cachedOf ds backend rng code).2 = none ∧
        ∀ x ∈ (getQuestionsForCountry countries cachedOf ds backend rng code).1,
          x ∈ cachedOf cname) := by
  constructor
  · intro h
    unfold getQuestionsForCountry
    rw [h]
  · intro cname hc hres
    unfold getQuestionsForCountry
    rw [hc]
    refine ⟨rfl, ?_⟩
    intro x hx
    simp only at hx
    unfold generateForCountry at hx
    split at hx
    · exact randomSample_mem _ _ _ _ hx
    · rw [hres] at hx
      dsimp only at hx
      split at hx
      · simp at hx
      · exact randomSample_mem _ _ _ _ hx

attribute [local semireducible] Rat.add Rat.mul Rat.inv Rat.sub in
/-- Witness for C7: code "zz" is unknown; code "xx" resolves to "Atlantis",
which has no dataset entry, so the cached pool is returned without error. -/
theorem c7_witness :
    (getQuestionsForCountry countriesW cachedOfW [] backendNone [] "zz" =
      ([], some ("Country not found: " ++ "zz")))
    ∧ ((getQuestionsForCountry countriesW cachedOfW [] backendNone [] "xx").2 = none ∧
       ∀ x ∈ (getQuestionsForCountry countriesW cachedOfW [] backendNone [] "xx").1,
         x ∈ cachedOfW "Atlantis") :=
  ⟨(c7_entry_point_error_handling countriesW cachedOfW [] backendNone [] "zz").1 (by decide),
   (c7_entry_point_error_handling countriesW cachedOfW [] backendNone [] "xx").2 "Atlantis"
     (by decide) (by decide)⟩

/-- A year surviving the recency guards is 0 (Python-falsy, exempt from both
guards) or lies in the 15-year window ending at the current year. -/
theorem yearAllowed_bounds (cy y : ℤ) (h : yearAllowed cy (some y) = true) :
    y = 0 ∨ (y ≤ cy ∧ cy - 15 ≤ y) := by
  unfold yearAllowed at h
  dsimp only at h
  by_cases h1 : y ≠ 0 ∧ cy < y
  · rw [if_pos h1] at h; cases h
  · rw [if_neg h1] at h
    by_cases h2 : y ≠ 0 ∧ y < cy - 15
    · rw [if_pos h2] at h; cases h
    · push_neg at h1 h2
      by_cases h0 : y = 0
      · exact Or.inl h0
      · exact Or.inr ⟨h1 h0, h2 h0⟩

/-- One category step of the extractor preserves the extraction invariant:
keys stay duplicate-free and every entry is an allow-listed display name
with a usable value and an admissible year. -/
theorem extractMetricsCat_preserve (cy : ℤ) (cdata : CategoryData)
    (acc : List (String × MetricEntry))
    (hacc : ((acc.map Prod.fst).Nodup ∧ ∀ kk e, (kk, e) ∈ acc →
      (∃ mk, mk ∈ INTERESTING_METRICS ∧ kk = displayNameOf mk) ∧
      e.value.isSome = true ∧
      ∀ y : ℤ, e.year = some y → y = 0 ∨ (y ≤ cy ∧ cy - 15 ≤ y))) :
    (((extractMetricsCat cy cdata acc).map Prod.fst).Nodup ∧
      ∀ kk e, (kk, e) ∈ extractMetricsCat cy cdata acc →
      (∃ mk, mk ∈ INTERESTING_METRICS ∧ kk = displayNameOf mk) ∧
      e.value.isSome = true ∧
      ∀ y : ℤ, e.year = some y → y = 0 ∨ (y ≤ cy ∧ cy - 15 ≤ y)) := by
  unfold extractMetricsCat
  refine foldl_preserve
    (P := fun (acc : List (String × MetricEntry)) => (acc.map Prod.fst).Nodup ∧
      ∀ (kk : String) (e : MetricEntry), (kk, e) ∈ acc →
      (∃ mk, mk ∈ INTERESTING_METRICS ∧ kk = displayNameOf mk) ∧
      e.value.isSome = true ∧
      ∀ y : ℤ, e.year = some y → y = 0 ∨ (y ≤ cy ∧ cy - 15 ≤ y))
    _ INTERESTING_METRICS acc ?_ hacc
  intro acc2 mk hmk hacc2
  cases halo : alookup cdata mk with
  | none => dsimp only; exact hacc2
  | some e =>
    dsimp only
    cases hval : e.value with
    | none => dsimp only; exact hacc2
    | some v =>
      dsimp only
      by_cases hya : yearAllowed cy e.year = true
      · rw [if_pos hya]
        refine ⟨upsert_keys_nodup _ _ _ hacc2.1, ?_⟩
        intro kk e' hmem
        rcases upsert_mem _ _ _ _ hmem with hold | hnew
        · exact hacc2.2 kk e' hold
        · have hkk : kk = displayNameOf mk := (Prod.mk.injEq _ _ _ _ ▸ hnew).1
          have he' : e' = ⟨some v, e.year⟩ := (Prod.mk.injEq _ _ _ _ ▸ hnew).2
          refine ⟨⟨mk, hmk, hkk⟩, by rw [he']; rfl, ?_⟩
          intro y hy
          rw [he'] at hy
          simp only at hy
          rw [hy] at hya
          exact yearAllowed_bounds cy y hya
      · rw [if_neg hya]
        exact hacc2

/-- Claim C6: metric extraction is total and returns a flat
displayName-keyed mapping whose every entry comes from the allow-list, has
a usable value, and has a year that is neither strictly after the current
year nor more than 15 years old (Python truthiness exempts a 0 year, which
is not a calendar year, from both guards). -/
theorem c6_extraction_total_and_filtered (cy : ℤ) (cd : CountryData) :
    ((extractMetrics cy cd).map Prod.fst).Nodup ∧
    ∀ kk e, (kk, e) ∈ extractMetrics cy cd →
      (∃ mk, mk ∈ INTERESTING_METRICS ∧ kk = displayNameOf mk) ∧
      e.value.isSome = true ∧
      ∀ y : ℤ, e.year = some y → y = 0 ∨ (y ≤ cy ∧ cy - 15 ≤ y) := by
  unfold extractMetrics
  refine foldl_preserve
    (P := fun (acc : List (String × MetricEntry)) => (acc.map Prod.fst).Nodup ∧
      ∀ (kk : String) (e : MetricEntry), (kk, e) ∈ acc →
      (∃ mk, mk ∈ INTERESTING_METRICS ∧ kk = displayNameOf mk) ∧
      e.value.isSome = true ∧
      ∀ y : ℤ, e.year = some y → y = 0 ∨ (y ≤ cy ∧ cy - 15 ≤ y))
    _ cd [] ?_ ⟨List.nodup_nil, by simp⟩
  intro acc p hp hacc
  exact extractMetricsCat_preserve cy p.2 acc hacc

attribute [local semireducible] Rat.add Rat.mul Rat.inv Rat.sub in
/-- Witness for C6: on a concrete record, extraction keeps only the
allow-listed, valued, recent metric (`gdppercapita_us_inflation_adjusted`),
dropping a non-allow-listed key, a stale 1990 metric and a value-less entry;
on an all-stale record it returns the empty mapping; and the general
filter conclusions hold at this input. -/
theorem c6_witness :
    extractMetrics (Int.ofNat 2025) cdWitness =
      [("Gdppercapita Us Inflation Adjusted", ⟨some (intToQ (Int.ofNat 2300)), some (Int.ofNat 2021)⟩)] ∧
    extractMetrics (Int.ofNat 2025) cdStale = [] ∧
    (∀ kk e, (kk, e) ∈ extractMetrics (Int.ofNat 2025) cdWitness →
      (∃ mk, mk ∈ INTERESTING_METRICS ∧ kk = displayNameOf mk) ∧
      e.value.isSome = true ∧
      ∀ y : ℤ, e.year = some y →
        y = 0 ∨ (y ≤ Int.ofNat 2025 ∧ Int.ofNat 2025 - 15 ≤ y)) :=
  ⟨by decide, by decide,
   (c6_extraction_total_and_filtered (Int.ofNat 2025) cdWitness).2⟩

attribute [local semireducible] Rat.add Rat.mul Rat.inv Rat.sub in
/-- Counterexample for C8: with a single available template metric, one
deficit-fill round generates two value questions about the same metric
(identical prompts) — no exclusion set of used metrics is maintained. -/
theorem c8_counterexample :
    (generateQuestions dsOneMetric "Testonia" 3 []).map (fun q => q.prompt) =
      ["What is the internet usage rate in Testonia (as of 2022)?",
       "What is the internet usage rate in Testonia (as of 2022)?"] := by decide

attribute [local semireducible] Rat.add Rat.mul Rat.inv Rat.sub in
/-- Claim C8 (amended): each value-question call of a deficit-fill round
picks from all metrics available in the country's data, with no cross-call
exclusion set; with a single available metric, both value questions of the
round are about that same metric, whatever the random stream. -/
theorem c8_value_metric_reused_across_round (rng : List ℕ) :
    (generateQuestions dsOneMetric "Testonia" 3 rng).map (fun q => q.prompt) =
      ["What is the internet usage rate in Testonia (as of 2022)?",
       "What is the internet usage rate in Testonia (as of 2022)?"] := by
  have hval : ∀ r : List ℕ, ∃ g r2,
      generateValueQuestion "Testonia"
        [("People & Society", [("internet_users", ⟨some (155/2), some (Int.ofNat 2022)⟩)])] r =
        (some g, r2) ∧
      g.prompt = "What is the internet usage rate in Testonia (as of 2022)?" := by
    intro r
    unfold generateValueQuestion
    rw [show availableMetrics
        [("People & Society", [("internet_users", ⟨some (155/2), some (Int.ofNat 2022)⟩)])] =
        [("internet_users", ⟨"internet usage rate", "%", .f1, "People & Society"⟩,
          (155/2, some (Int.ofNat 2022)))] from by decide]
    simp only [randomChoice, List.length_singleton, Nat.mod_one, List.getD_cons_zero]
    refine ⟨_, _, rfl, ?_⟩
    dsimp only
    rw [if_pos (by decide : (Int.ofNat 2022 : ℤ) ≠ 0)]
    decide
  have hcomp : ∀ r : List ℕ,
      generateComparisonQuestion "Testonia"
        [("People & Society", [("internet_users", ⟨some (155/2), some (Int.ofNat 2022)⟩)])] r =
        (none, r) := by
    intro r
    unfold generateComparisonQuestion
    rw [show tryComparisonPair "Testonia"
        [("People & Society", [("internet_users", ⟨some (155/2), some (Int.ofNat 2022)⟩)])]
        "life_expectancy_female" "life_expectancy_male" = none from by decide]
    rw [show tryComparisonPair "Testonia"
        [("People & Society", [("internet_users", ⟨some (155/2), some (Int.ofNat 2022)⟩)])]
        "literacy_rate_adult" "internet_users" = none from by decide]
  unfold generateQuestions
  rw [show alookup dsOneMetric "Testonia" =
      some [("People & Society", [("internet_users", ⟨some (155/2), some (Int.ofNat 2022)⟩)])]
      from by decide]
  dsimp only
  rw [if_neg (by decide : ¬(List.isEmpty
      [("People & Society", [("internet_users",
        (⟨some (155/2), some (Int.ofNat 2022)⟩ : MetricEntry))])] = true))]
  show (runGenerators "Testonia" _ [GenKind.value, GenKind.value, GenKind.comparison] rng).map _ = _
  obtain ⟨g1, r2, hg1, hp1⟩ := hval rng
  unfold runGenerators
  rw [hg1]
  dsimp only
  obtain ⟨g2, r3, hg2, hp2⟩ := hval r2
  unfold runGenerators
  rw [hg2]
  dsimp only
  unfold runGenerators
  rw [hcomp r3]
  dsimp only [runGenerators]
  rw [List.map_cons, List.map_cons, List.map_nil, hp1, hp2]

/-- Witness for C8 (amended): instantiated at a nonempty random stream. -/
theorem c8_witness :
    (generateQuestions dsOneMetric "Testonia" 3 [3, 1, 4]).map (fun q => q.prompt) =
      ["What is the internet usage rate in Testonia (as of 2022)?",
       "What is the internet usage rate in Testonia (as of 2022)?"] :=
  c8_value_metric_reused_across_round [3, 1, 4]
